import Mathlib

/-!
Verification of the tiny-test table-driven test utility.

The program has two pieces:
* the case runner `collect_fails` — iterates `(input, expected)` pairs with a
  1-based counter, runs the function under test, applies the assertion
  predicate, keeps a record `(input, expected, result, case_id)` for every
  failing case (and, in a debug build, fail-fasts on the first failure via a
  debug assertion);
* the reporter `report_fails` — returns normally on an empty failure
  collection and otherwise panics with a report assembled from one block per
  failure record, substituting a fallback line for any record whose
  formatting fails.

Machine strings are modelled as Lean `String`; the language-specific pretty
printing of arbitrary values is abstracted as an explicit formatter function
per type (total `X → String` where formatting cannot fail, `X → Option String`
where the reporter treats it as fallible).
-/

namespace TinyTest

/-- Outcome of running the case-runner including its debug-assertion branch:
either a panic carrying a message, or normal completion with the collected
failure records. -/
inductive RunOutcome (I E R : Type) : Type where
  | panicked : String → RunOutcome I E R
  | completed : List (I × E × R × Nat) → RunOutcome I E R
deriving DecidableEq

/-- Outcome of the reporter: normal return, or a panic carrying the report. -/
inductive ReportOutcome : Type where
  | returned : ReportOutcome
  | panicked : String → ReportOutcome
deriving DecidableEq

/-- The shared per-failure format template, applied to already rendered
values.  It is the format string of both the debug assertion in the case
runner and the per-record line write in the reporter. -/
def failMessageStr (case_id : Nat) (si se sr : String) : String :=
  "test case " ++ toString case_id ++ ": assertion failed for input `" ++ si
    ++ "`\n\texpected `" ++ se ++ "`\n\tresult `" ++ sr ++ "`\n"

/-- The per-failure message for a record, rendering the values with the given
formatters. -/
def failMessage {I E R : Type} (dbgI : I → String) (dbgE : E → String)
    (dbgR : R → String) (case_id : Nat) (input : I) (expected : E)
    (result : R) : String :=
  failMessageStr case_id (dbgI input) (dbgE expected) (dbgR result)

/-- Loop of the case runner: the counter is incremented at the start of each
iteration (so the first case gets id 1), the test is run on the input, the
assertion compares the result against the expected value, and only failing
cases produce a record. -/
def collect_fails_go {I E R : Type} (test : I → R) (assert : R → E → Bool) :
    Nat → List (I × E) → List (I × E × R × Nat)
  | _, [] => []
  | case_id, (input, expected) :: rest =>
    let cid := case_id + 1
    let result := test input
    if assert result expected then
      collect_fails_go test assert cid rest
    else
      (input, expected, result, cid) :: collect_fails_go test assert cid rest

/-- The case runner (release-configuration aggregation path): collect one
record per failing case, in iteration order, with 1-based case ids. -/
def collect_fails {I E R : Type} (cases : List (I × E)) (test : I → R)
    (assert : R → E → Bool) : List (I × E × R × Nat) :=
  collect_fails_go test assert 0 cases

/-- The shorthand calling convention of the case runner: expected and result
share one type and the assertion defaults to equality, exactly as the
four-argument form of the macro expands to the six-argument form. -/
def collect_fails_default {I R : Type} [BEq R] (cases : List (I × R))
    (test : I → R) : List (I × R × R × Nat) :=
  collect_fails cases test (fun e r => e == r)

/-- Loop of the case runner with the debug-assertion branch made explicit:
when `debug` is set, the first failing assertion panics immediately with the
single-case message; otherwise the aggregation path of `collect_fails_go`
applies. -/
def collect_fails_run_go {I E R : Type} (debug : Bool) (test : I → R)
    (assert : R → E → Bool) (dbgI : I → String) (dbgE : E → String)
    (dbgR : R → String) : Nat → List (I × E) → RunOutcome I E R
  | _, [] => .completed []
  | case_id, (input, expected) :: rest =>
    let cid := case_id + 1
    let result := test input
    let ok := assert result expected
    if debug && !ok then
      .panicked (failMessage dbgI dbgE dbgR cid input expected result)
    else
      match collect_fails_run_go debug test assert dbgI dbgE dbgR cid rest with
      | .panicked msg => .panicked msg
      | .completed fs =>
          .completed (if ok then fs else (input, expected, result, cid) :: fs)

/-- The case runner with its build-configuration flag: `debug = true` models a
development build (the debug assertion is active), `debug = false` a release
build (the debug assertion is compiled out). -/
def collect_fails_run {I E R : Type} (debug : Bool) (cases : List (I × E))
    (test : I → R) (assert : R → E → Bool) (dbgI : I → String)
    (dbgE : E → String) (dbgR : R → String) : RunOutcome I E R :=
  collect_fails_run_go debug test assert dbgI dbgE dbgR 0 cases

/-- The fallback line the reporter substitutes for a record whose formatting
failed. -/
def fallbackLine (case_id : Nat) : String :=
  "test case " ++ toString case_id ++ ": assertion failed, unable to print message\n\n"

/-- The rendered block of one failure record on the success path: the format
template followed by the extra newline the line-writing call appends. -/
def recordBlock {I E R : Type} (dbgI : I → String) (dbgE : E → String)
    (dbgR : R → String) : I × E × R × Nat → String
  | (input, expected, result, case_id) =>
    failMessageStr case_id (dbgI input) (dbgE expected) (dbgR result) ++ "\n"

/-- What one failure record contributes to the report: if all three values
render, the formatted block (the line write appends a trailing newline to the
template); if any rendering fails, the fallback line. -/
def recordContribution {I E R : Type} (dbgI : I → Option String)
    (dbgE : E → Option String) (dbgR : R → Option String) :
    I × E × R × Nat → String
  | (input, expected, result, case_id) =>
    match dbgI input, dbgE expected, dbgR result with
    | some si, some se, some sr => failMessageStr case_id si se sr ++ "\n"
    | _, _, _ => fallbackLine case_id

/-- The reporter: return normally on an empty failure collection; otherwise
accumulate each record's contribution in order into a report and panic with
the prefixed report. -/
def report_fails {I E R : Type} (dbgI : I → Option String)
    (dbgE : E → Option String) (dbgR : R → Option String)
    (fails : List (I × E × R × Nat)) : ReportOutcome :=
  if fails.isEmpty then .returned
  else
    .panicked ("One or more assertions failed:\n"
      ++ fails.foldl (fun acc fr => acc ++ recordContribution dbgI dbgE dbgR fr) "")

/-- Specification-side description of the case runner's output: enumerate the
cases, keep exactly the failing ones, and record
`(input, expected, test input, 1-based position)` for each. -/
def collect_fails_spec {I E R : Type} (cases : List (I × E)) (test : I → R)
    (assert : R → E → Bool) : List (I × E × R × Nat) :=
  cases.enum.filterMap fun p =>
    if assert (test p.2.1) p.2.2 then none
    else some (p.2.1, p.2.2, test p.2.1, p.1 + 1)

/-- The concrete case table of scenario B of the specification. -/
def scenarioBCases : List (String × String) :=
  [("input string", "expected string"), ("hello world!", "hello papa!")]

/-! ### Helper lemmas -/

theorem collect_fails_go_eq_enumFrom {I E R : Type} (test : I → R)
    (assert : R → E → Bool) (cases : List (I × E)) (n : Nat) :
    collect_fails_go test assert n cases
      = (List.enumFrom n cases).filterMap (fun p =>
          if assert (test p.2.1) p.2.2 then none
          else some (p.2.1, p.2.2, test p.2.1, p.1 + 1)) := by
  induction cases generalizing n with
  | nil => rfl
  | cons hd tl ih =>
    obtain ⟨input, expected⟩ := hd
    by_cases h : assert (test input) expected
    · simp [collect_fails_go, List.enumFrom, List.filterMap_cons, h, ih]
    · simp [collect_fails_go, List.enumFrom, List.filterMap_cons, h, ih]

theorem collect_fails_go_length {I E R : Type} (test : I → R)
    (assert : R → E → Bool) (cases : List (I × E)) (n : Nat) :
    (collect_fails_go test assert n cases).length ≤ cases.length := by
  induction cases generalizing n with
  | nil => exact Nat.le_refl 0
  | cons hd tl ih =>
    obtain ⟨input, expected⟩ := hd
    by_cases h : assert (test input) expected
    · simp only [collect_fails_go, h, if_true]
      exact Nat.le_succ_of_le (ih (n + 1))
    · simp only [collect_fails_go, h, if_false, List.length_cons]
      exact Nat.succ_le_succ (ih (n + 1))

theorem collect_fails_go_id_lt {I E R : Type} (test : I → R)
    (assert : R → E → Bool) (cases : List (I × E)) (n : Nat) :
    ∀ fr ∈ collect_fails_go test assert n cases, n < fr.2.2.2 := by
  induction cases generalizing n with
  | nil => intro fr h; cases h
  | cons hd tl ih =>
    obtain ⟨input, expected⟩ := hd
    intro fr hfr
    by_cases h : assert (test input) expected
    · simp only [collect_fails_go, h, if_true] at hfr
      exact Nat.lt_of_succ_lt (ih (n + 1) fr hfr)
    · simp only [collect_fails_go, h, if_false] at hfr
      cases hfr with
      | head => exact Nat.lt_succ_self n
      | tail _ h2 => exact Nat.lt_of_succ_lt (ih (n + 1) fr h2)

theorem collect_fails_go_pairwise {I E R : Type} (test : I → R)
    (assert : R → E → Bool) (cases : List (I × E)) (n : Nat) :
    (collect_fails_go test assert n cases).Pairwise
      (fun a b => a.2.2.2 < b.2.2.2) := by
  induction cases generalizing n with
  | nil => exact List.Pairwise.nil
  | cons hd tl ih =>
    obtain ⟨input, expected⟩ := hd
    by_cases h : assert (test input) expected
    · simpa only [collect_fails_go, h, if_true] using ih (n + 1)
    · simp only [collect_fails_go, h, if_false]
      exact List.Pairwise.cons
        (fun fr hfr => collect_fails_go_id_lt test assert tl (n + 1) fr hfr)
        (ih (n + 1))

theorem mem_enumFrom_get {α : Type} (l : List α) (n : Nat) (p : Nat × α) :
    p ∈ List.enumFrom n l →
      n ≤ p.1 ∧ ∃ h : p.1 - n < l.length, l.get ⟨p.1 - n, h⟩ = p.2 := by
  induction l generalizing n with
  | nil => intro h; cases h
  | cons hd tl ih =>
    intro hp
    simp only [List.enumFrom, List.mem_cons] at hp
    rcases hp with rfl | hp
    · exact ⟨Nat.le_refl n, by simp⟩
    · obtain ⟨hle, hlt, hget⟩ := ih (n + 1) hp
      refine ⟨Nat.le_of_succ_le hle, ?_⟩
      have hsub : p.1 - n = (p.1 - (n + 1)) + 1 := by omega
      have hlen : p.1 - n < (hd :: tl).length := by
        simp only [List.length_cons]; omega
      refine ⟨hlen, ?_⟩
      have : (hd :: tl).get ⟨(p.1 - (n + 1)) + 1, by simp; omega⟩
          = tl.get ⟨p.1 - (n + 1), hlt⟩ := rfl
      rw [show (⟨p.1 - n, hlen⟩ : Fin (hd :: tl).length)
            = ⟨(p.1 - (n + 1)) + 1, by simp; omega⟩ from by simp [hsub]]
      rw [this, hget]

theorem string_foldl_append (l : List String) (acc : String) :
    l.foldl (· ++ ·) acc = acc ++ String.join l := by
  induction l generalizing acc with
  | nil =>
    show acc = acc ++ ""
    rw [String.append_empty]
  | cons hd tl ih =>
    show List.foldl (· ++ ·) (acc ++ hd) tl = acc ++ String.join (hd :: tl)
    rw [ih]
    have hjoin : String.join (hd :: tl) = hd ++ String.join tl := by
      show List.foldl (· ++ ·) ("" ++ hd) tl = hd ++ String.join tl
      rw [String.empty_append, ih]
    rw [hjoin, String.append_assoc]

theorem recordContribution_some {I E R : Type} (dbgI : I → String)
    (dbgE : E → String) (dbgR : R → String) (fr : I × E × R × Nat) :
    recordContribution (fun i => some (dbgI i)) (fun e => some (dbgE e))
        (fun r => some (dbgR r)) fr
      = recordBlock dbgI dbgE dbgR fr := by
  obtain ⟨input, expected, result, case_id⟩ := fr
  rfl

theorem report_fails_cons {I E R : Type} (dbgI : I → Option String)
    (dbgE : E → Option String) (dbgR : R → Option String)
    (fr : I × E × R × Nat) (rest : List (I × E × R × Nat)) :
    report_fails dbgI dbgE dbgR (fr :: rest)
      = .panicked ("One or more assertions failed:\n"
          ++ String.join ((fr :: rest).map (recordContribution dbgI dbgE dbgR))) := by
  show ReportOutcome.panicked _ = _
  rw [List.foldl_map (recordContribution dbgI dbgE dbgR) (· ++ ·) (fr :: rest) ""
      |>.symm.trans (string_foldl_append _ ""), String.empty_append]

/-! ### Claim theorems -/

/-- Claim C1: for every finite case sequence, test function and assertion
predicate, the case runner returns, for each case whose assertion evaluates
to false, exactly one record (input, expected, test input, case id) in
iteration order, and no entry for any case whose assertion evaluates to true
— i.e. its output is exactly the filter-map of the enumerated case list that
keeps the failing cases. -/
theorem collect_fails_correct {I E R : Type} (cases : List (I × E))
    (test : I → R) (assert : R → E → Bool) :
    collect_fails cases test assert = collect_fails_spec cases test assert := by
  show collect_fails_go test assert 0 cases = _
  rw [collect_fails_go_eq_enumFrom]
  rfl

/-- Claim C3: the case ids in the failure collection are strictly increasing,
each equals the 1-based position of its failing case in the original
sequence, the number of records never exceeds the number of cases, and the
example cases (1 ok)(2 fail)(3 ok)(4 fail) yield case ids 2 and 4. -/
theorem collect_fails_case_ids {I E R : Type} (cases : List (I × E))
    (test : I → R) (assert : R → E → Bool) :
    (collect_fails cases test assert).length ≤ cases.length
    ∧ (collect_fails cases test assert).Pairwise (fun a b => a.2.2.2 < b.2.2.2)
    ∧ (∀ input expected result case_id,
        (input, expected, result, case_id) ∈ collect_fails cases test assert →
          1 ≤ case_id
          ∧ ∃ h : case_id - 1 < cases.length,
              cases.get ⟨case_id - 1, h⟩ = (input, expected)
              ∧ result = test input ∧ assert result expected = false)
    ∧ (collect_fails [((1 : Nat), true), (2, false), (3, true), (4, false)]
        (fun _ => ()) (fun _ ok => ok)).map (fun fr => fr.2.2.2) = [2, 4] := by
  refine ⟨collect_fails_go_length test assert cases 0,
    collect_fails_go_pairwise test assert cases 0, ?_, by decide⟩
  intro input expected result case_id hmem
  have hrw : collect_fails cases test assert
      = (List.enumFrom 0 cases).filterMap (fun p =>
          if assert (test p.2.1) p.2.2 then none
          else some (p.2.1, p.2.2, test p.2.1, p.1 + 1)) :=
    collect_fails_go_eq_enumFrom test assert cases 0
  rw [hrw] at hmem
  obtain ⟨p, hp, hfp⟩ := List.mem_filterMap.mp hmem
  by_cases ha : assert (test p.2.1) p.2.2
  · simp [ha] at hfp
  · simp only [ha, if_false, Option.some.injEq] at hfp
    obtain ⟨rfl, rfl, rfl, rfl⟩ := hfp.symm
    obtain ⟨-, hlt, hget⟩ := mem_enumFrom_get cases 0 p hp
    refine ⟨Nat.le_add_left 1 p.1, ?_⟩
    have hidx : p.1 + 1 - 1 = p.1 - 0 := by omega
    rw [hidx]
    exact ⟨hlt, by rw [hget], rfl, by simpa using ha⟩

/-- Witness for claim C3 at a concrete input: in the two-case table whose
second case fails, the record with case id 2 points back to position 2 of
the table. -/
theorem collect_fails_case_ids_witness :
    1 ≤ 2
    ∧ ∃ h : 2 - 1 < ([((1 : Nat), true), (2, false)] : List (Nat × Bool)).length,
        ([((1 : Nat), true), (2, false)] : List (Nat × Bool)).get ⟨2 - 1, h⟩
          = (2, false)
        ∧ () = (fun _ : Nat => ()) 2
        ∧ (fun _ : Unit => fun ok : Bool => ok) () false = false :=
  (collect_fails_case_ids [((1 : Nat), true), (2, false)] (fun _ => ())
    (fun _ ok => ok)).2.2.1 2 false () 2 (by decide)

/-- Claim C7: the shorthand calling convention (no explicit assertion)
produces exactly the same failure collection as the explicit form called
with structural equality as the assertion predicate. -/
theorem collect_fails_default_eq_explicit {I R : Type} [DecidableEq R]
    (cases : List (I × R)) (test : I → R) :
    collect_fails_default cases test
      = collect_fails cases test (fun result expected => decide (result = expected)) :=
  rfl

/-- Claim C8: the empty case sequence yields an empty failure collection, and
reporting that empty collection returns normally without aborting. -/
theorem collect_fails_empty_report_returns {I E R : Type} (test : I → R)
    (assert : R → E → Bool) (dbgI : I → Option String)
    (dbgE : E → Option String) (dbgR : R → Option String) :
    collect_fails ([] : List (I × E)) test assert = []
    ∧ report_fails dbgI dbgE dbgR (collect_fails ([] : List (I × E)) test assert)
        = ReportOutcome.returned :=
  ⟨rfl, rfl⟩

/-- Claim C2: the reporter returns normally on an empty failure collection and
never returns on a non-empty one — it panics, and the panic message carries
the literal text "One or more assertions failed:" and a newline at its
start. -/
theorem report_fails_empty_or_abort {I E R : Type} (dbgI : I → Option String)
    (dbgE : E → Option String) (dbgR : R → Option String)
    (fails : List (I × E × R × Nat)) :
    (fails = [] → report_fails dbgI dbgE dbgR fails = ReportOutcome.returned)
    ∧ (fails ≠ [] → ∃ body, report_fails dbgI dbgE dbgR fails
        = ReportOutcome.panicked ("One or more assertions failed:\n" ++ body)) := by
  constructor
  · intro h; subst h; rfl
  · intro h
    match fails with
    | [] => exact absurd rfl h
    | fr :: rest => exact ⟨_, report_fails_cons dbgI dbgE dbgR fr rest⟩

/-- Witness for claim C2 at concrete inputs: the empty collection returns
normally and a one-record collection panics with the prefixed message. -/
theorem report_fails_empty_or_abort_witness :
    (report_fails (fun _ : Unit => some "i") (fun _ : Unit => some "e")
        (fun _ : Unit => some "r") [] = ReportOutcome.returned)
    ∧ ∃ body, report_fails (fun _ : Unit => some "i") (fun _ : Unit => some "e")
        (fun _ : Unit => some "r") [((), (), (), 1)]
      = ReportOutcome.panicked ("One or more assertions failed:\n" ++ body) :=
  ⟨(report_fails_empty_or_abort (fun _ : Unit => some "i")
      (fun _ : Unit => some "e") (fun _ : Unit => some "r") []).1 rfl,
   (report_fails_empty_or_abort (fun _ : Unit => some "i")
      (fun _ : Unit => some "e") (fun _ : Unit => some "r")
      [((), (), (), 1)]).2 (by decide)⟩

/-- Counterexample to claim C4 as stated: the claim's block for a record is
the bare format template (ending in a single newline), but the line-writing
call appends one more newline per record, so for a one-record collection the
panic message is not the prefix followed by the bare template block. -/
theorem report_fails_template_counterexample :
    report_fails (fun _ : Unit => some "i") (fun _ : Unit => some "e")
        (fun _ : Unit => some "r") [((), (), (), 1)]
      ≠ ReportOutcome.panicked ("One or more assertions failed:\n"
          ++ "test case 1: assertion failed for input `i`\n\texpected `e`\n\tresult `r`\n") := by
  decide

/-- Claim C4 as amended: for a non-empty failure collection whose values all
render, the panic message is the line "One or more assertions failed:" plus
newline, followed by the concatenation, in record order, of one block per
record, where each block is the format template for that record followed by
the extra newline the line-writing call appends. -/
theorem report_fails_message {I E R : Type} (dbgI : I → String)
    (dbgE : E → String) (dbgR : R → String) (fails : List (I × E × R × Nat))
    (h : fails ≠ []) :
    report_fails (fun i => some (dbgI i)) (fun e => some (dbgE e))
        (fun r => some (dbgR r)) fails
      = ReportOutcome.panicked ("One or more assertions failed:\n"
          ++ String.join (fails.map (recordBlock dbgI dbgE dbgR))) := by
  match fails with
  | [] => exact absurd rfl h
  | fr :: rest =>
    rw [report_fails_cons]
    have hmap : (fr :: rest).map (recordContribution (fun i => some (dbgI i))
        (fun e => some (dbgE e)) (fun r => some (dbgR r)))
        = (fr :: rest).map (recordBlock dbgI dbgE dbgR) :=
      List.map_congr_left (fun x _ => recordContribution_some dbgI dbgE dbgR x)
    rw [hmap]

/-- Witness for the amended claim C4 at a concrete one-record collection. -/
theorem report_fails_message_witness :
    report_fails (fun _ : Unit => some "i") (fun _ : Unit => some "e")
        (fun _ : Unit => some "r") [((), (), (), 1)]
      = ReportOutcome.panicked ("One or more assertions failed:\n"
          ++ String.join ([((), (), (), 1)].map
              (recordBlock (fun _ : Unit => "i") (fun _ : Unit => "e")
                (fun _ : Unit => "r")))) :=
  report_fails_message (fun _ : Unit => "i") (fun _ : Unit => "e")
    (fun _ : Unit => "r") [((), (), (), 1)] (by decide)

/-- Claim C5: the panic message lists one contribution per record in order
(no record is dropped and the reporter processes all of them before
aborting), and any record whose formatting fails contributes exactly the
fallback line in place of its block. -/
theorem report_fails_fallback {I E R : Type} (dbgI : I → Option String)
    (dbgE : E → Option String) (dbgR : R → Option String)
    (fails : List (I × E × R × Nat)) (h : fails ≠ []) :
    report_fails dbgI dbgE dbgR fails
      = ReportOutcome.panicked ("One or more assertions failed:\n"
          ++ String.join (fails.map (recordContribution dbgI dbgE dbgR)))
    ∧ (fails.map (recordContribution dbgI dbgE dbgR)).length = fails.length
    ∧ (∀ input expected result case_id,
        (dbgI input = none ∨ dbgE expected = none ∨ dbgR result = none) →
          recordContribution dbgI dbgE dbgR (input, expected, result, case_id)
            = fallbackLine case_id) := by
  refine ⟨?_, List.length_map fails _, ?_⟩
  · match fails with
    | [] => exact absurd rfl h
    | fr :: rest => exact report_fails_cons dbgI dbgE dbgR fr rest
  · intro input expected result case_id hbad
    show (match dbgI input, dbgE expected, dbgR result with
      | some si, some se, some sr => failMessageStr case_id si se sr ++ "\n"
      | _, _, _ => fallbackLine case_id) = fallbackLine case_id
    rcases hbad with hb | hb | hb <;> rw [hb] <;>
      cases dbgI input <;> cases dbgE expected <;> cases dbgR result <;> rfl

/-- Witness for claim C5 at a concrete input: with an input formatter that
always fails, a one-record collection panics with the joined contributions,
and that record's contribution is the fallback line. -/
theorem report_fails_fallback_witness :
    report_fails (fun _ : Unit => (none : Option String))
        (fun _ : Unit => some "e") (fun _ : Unit => some "r") [((), (), (), 1)]
      = ReportOutcome.panicked ("One or more assertions failed:\n"
          ++ String.join ([((), (), (), 1)].map
              (recordContribution (fun _ : Unit => (none : Option String))
                (fun _ : Unit => some "e") (fun _ : Unit => some "r"))))
    ∧ recordContribution (fun _ : Unit => (none : Option String))
        (fun _ : Unit => some "e") (fun _ : Unit => some "r") ((), (), (), 1)
      = fallbackLine 1 :=
  ⟨(report_fails_fallback (fun _ : Unit => (none : Option String))
      (fun _ : Unit => some "e") (fun _ : Unit => some "r") [((), (), (), 1)]
      (by decide)).1,
   (report_fails_fallback (fun _ : Unit => (none : Option String))
      (fun _ : Unit => some "e") (fun _ : Unit => some "r") [((), (), (), 1)]
      (by decide)).2.2 () () () 1 (Or.inl rfl)⟩

theorem collect_fails_run_go_false {I E R : Type} (test : I → R)
    (assert : R → E → Bool) (dbgI : I → String) (dbgE : E → String)
    (dbgR : R → String) (cases : List (I × E)) (n : Nat) :
    collect_fails_run_go false test assert dbgI dbgE dbgR n cases
      = RunOutcome.completed (collect_fails_go test assert n cases) := by
  induction cases generalizing n with
  | nil => rfl
  | cons hd tl ih =>
    obtain ⟨input, expected⟩ := hd
    by_cases h : assert (test input) expected
    · simp [collect_fails_run_go, collect_fails_go, h, ih]
    · simp [collect_fails_run_go, collect_fails_go, h, ih]

theorem collect_fails_run_go_true {I E R : Type} (test : I → R)
    (assert : R → E → Bool) (dbgI : I → String) (dbgE : E → String)
    (dbgR : R → String) (cases : List (I × E)) (n : Nat) :
    collect_fails_run_go true test assert dbgI dbgE dbgR n cases
      = (match collect_fails_go test assert n cases with
         | [] => RunOutcome.completed []
         | (input, expected, result, case_id) :: _ =>
             RunOutcome.panicked
               (failMessage dbgI dbgE dbgR case_id input expected result)) := by
  induction cases generalizing n with
  | nil => rfl
  | cons hd tl ih =>
    obtain ⟨input, expected⟩ := hd
    by_cases h : assert (test input) expected
    · simp only [collect_fails_run_go, collect_fails_go, h, if_true, Bool.not_true,
        Bool.and_false, if_false, ih]
      cases collect_fails_go test assert (n + 1) tl with
      | nil => rfl
      | cons fr rest => obtain ⟨a, b, c, d⟩ := fr; rfl
    · simp [collect_fails_run_go, collect_fails_go, h]

/-- Claim C6: in a release build configuration the case runner completes with
the aggregated failure collection, while in a debug build configuration the
first failing case pre-empts aggregation and panics immediately with that
single case's message. -/
theorem collect_fails_run_modes {I E R : Type} (cases : List (I × E))
    (test : I → R) (assert : R → E → Bool) (dbgI : I → String)
    (dbgE : E → String) (dbgR : R → String) :
    collect_fails_run false cases test assert dbgI dbgE dbgR
      = RunOutcome.completed (collect_fails cases test assert)
    ∧ collect_fails_run true cases test assert dbgI dbgE dbgR
      = (match collect_fails cases test assert with
         | [] => RunOutcome.completed []
         | (input, expected, result, case_id) :: _ =>
             RunOutcome.panicked
               (failMessage dbgI dbgE dbgR case_id input expected result)) :=
  ⟨collect_fails_run_go_false test assert dbgI dbgE dbgR cases 0,
   collect_fails_run_go_true test assert dbgI dbgE dbgR cases 0⟩

/-- Claim C9: on the scenario-B case table with the identity test function
and the default-equality shorthand, both cases fail and are recorded with
case ids 1 and 2, and the reporter panics with a message consisting of the
prefix line followed by the block for case 1 and then the block for case 2,
for any rendering of the string values. -/
theorem collect_fails_scenario_b (dbg : String → String) :
    collect_fails_default scenarioBCases (fun s => s)
      = [("input string", "expected string", "input string", 1),
         ("hello world!", "hello papa!", "hello world!", 2)]
    ∧ report_fails (fun s => some (dbg s)) (fun s => some (dbg s))
        (fun s => some (dbg s)) (collect_fails_default scenarioBCases (fun s => s))
      = ReportOutcome.panicked ("One or more assertions failed:\n"
          ++ (recordBlock dbg dbg dbg
                ("input string", "expected string", "input string", 1)
              ++ recordBlock dbg dbg dbg
                ("hello world!", "hello papa!", "hello world!", 2))) := by
  have h1 : collect_fails_default scenarioBCases (fun s => s)
      = [("input string", "expected string", "input string", 1),
         ("hello world!", "hello papa!", "hello world!", 2)] := by decide
  refine ⟨h1, ?_⟩
  rw [h1]
  show ReportOutcome.panicked _ = _
  simp only [List.foldl]
  rw [String.empty_append, recordContribution_some, recordContribution_some]

/-- Claim C10: every successfully formatted record block ends with two
newlines (the template's own newline plus the one the line write appends),
the fallback line likewise ends with two newlines, and hence every
per-record contribution to the report ends with an empty line, so
consecutive blocks are separated by a blank line. -/
theorem record_blocks_end_blank {I E R : Type} (dbgI : I → String)
    (dbgE : E → String) (dbgR : R → String) (input : I) (expected : E)
    (result : R) (case_id : Nat) :
    (∃ s, recordBlock dbgI dbgE dbgR (input, expected, result, case_id)
        = s ++ "\n\n")
    ∧ (∃ t, fallbackLine case_id = t ++ "\n\n")
    ∧ (∀ (fI : I → Option String) (fE : E → Option String)
        (fR : R → Option String), ∃ u,
          recordContribution fI fE fR (input, expected, result, case_id)
            = u ++ "\n\n") := by
  have hblock : ∀ si se sr : String, failMessageStr case_id si se sr ++ "\n"
      = ("test case " ++ toString case_id ++ ": assertion failed for input `"
          ++ si ++ "`\n\texpected `" ++ se ++ "`\n\tresult `" ++ sr ++ "`")
        ++ "\n\n" := by
    intro si se sr
    simp only [failMessageStr, String.append_assoc]
    rfl
  have hfall : fallbackLine case_id
      = ("test case " ++ toString case_id
          ++ ": assertion failed, unable to print message") ++ "\n\n" := by
    simp only [fallbackLine, String.append_assoc]
    rfl
  refine ⟨⟨_, hblock (dbgI input) (dbgE expected) (dbgR result)⟩, ⟨_, hfall⟩, ?_⟩
  intro fI fE fR
  show ∃ u, (match fI input, fE expected, fR result with
    | some si, some se, some sr => failMessageStr case_id si se sr ++ "\n"
    | _, _, _ => fallbackLine case_id) = u ++ "\n\n"
  cases fI input with
  | none => cases fE expected <;> cases fR result <;> exact ⟨_, hfall⟩
  | some si =>
    cases fE expected with
    | none => cases fR result <;> exact ⟨_, hfall⟩
    | some se =>
      cases fR result with
      | none => exact ⟨_, hfall⟩
      | some sr => exact ⟨_, hblock si se sr⟩

end TinyTest
